import Mathlib

/-!
Verification of the Player Profile key-management front end
(`src/components/ProfileManager.tsx`).

The component is a single-threaded, event-driven React component.  We embed it
as an explicit state machine: a `World` carrying the component state
(`TransferState`, connected wallet, fetched profiles, modal flag) together
with observation logs (submitted transactions, dispatched remove-key
mutations, count of network profile reads) and a wall clock, and an
`applyEvent` step function.  Each user action or effect of the source is one
`Event`; `applyEvent` guards each handler by the conditions under which the
source renders the corresponding button (those guards are part of the source:
`renderTransferModalContent` switches on `transferState.step`, and the
profile table is rendered only when `!isTransferInProgress`).

JavaScript strings are embedded as `List Char`.  The external
`@solana/web3.js` `PublicKey` constructor is modelled by `parsePubkey`:
it succeeds exactly on strings of base58 characters of plausible key length
(the real constructor base58-decodes to 32 bytes; every claim here needs
only that whitespace is never part of a valid address).  Transactions are
modelled structurally (`Tx`): serialization in the source
(`serialize`/`Transaction.from` round trip) is byte-exact, so
`partiallySignedTx` stores the `Tx` value itself.
-/

namespace ProfileKeyManagement

/-- JavaScript strings, embedded as lists of characters. -/
abbrev Str := List Char

/-- The base58 alphabet used by Solana addresses. -/
def b58Chars : List Char :=
  "123456789ABCDEFGHJKLMNPQRSTUVWXYZabcdefghijkmnopqrstuvwxyz".data

/-- Membership in the base58 alphabet. -/
def isB58Char (c : Char) : Bool := b58Chars.contains c

/-- Model of `new PublicKey(s)` validity: base58 characters only, with the
length of a base58 encoding of 32 bytes (32 to 44 characters). -/
def validB58 (l : Str) : Bool :=
  decide (32 ≤ l.length) && decide (l.length ≤ 44) && l.all isB58Char

/-- A well-formed public key: a valid base58 string.  `toBase58` is `Subtype.val`. -/
abbrev Pubkey := { l : Str // validB58 l = true }

/-- Embedding of `p.toBase58()` of the source. -/
def toB58 (p : Pubkey) : Str := p.val

/-- Model of the `new PublicKey(s)` constructor: `some` on valid input,
`none` where the source constructor throws. -/
def parsePubkey (l : Str) : Option Pubkey :=
  if h : validB58 l = true then some ⟨l, h⟩ else none

/-- Whitespace characters removed by `String.prototype.trim()` (the ASCII
subset; the claims need only that these are never base58 characters). -/
def isWS (c : Char) : Bool := c == ' ' || c == '\t' || c == '\n' || c == '\r'

/-- Model of `s.trim()`: drop whitespace from both ends. -/
def trimL (l : Str) : Str :=
  ((l.dropWhile isWS).reverse.dropWhile isWS).reverse

/-- The `transferState.step` values (`type TransferStep`, ProfileManager.tsx line 14). -/
inductive TransferStep where
  | idle
  | enter_destination
  | sign_current
  | connect_destination
  | sign_destination
  | complete
  | expired
deriving DecidableEq, Repr

/-- A transaction, modelled structurally.  `requiredSigners` are the fee payer
(the destination, set at line 366) and the auth-key signer whose `isSigner`
flag the source leaves set; `signatures` records which wallets have signed. -/
structure Tx where
  feePayer : Pubkey
  newAuthKey : Pubkey
  signerKey : Pubkey
  requiredSigners : List Pubkey
  signatures : List Pubkey
  txProfileKey : Str
  keyIndexStart : Nat
  keyIndexEnd : Nat
deriving DecidableEq, Repr

/-- The `interface TransferState` record (ProfileManager.tsx lines 16-26).
`partiallySignedTx` holds the serialized transaction (serialization is
byte-exact, so we keep the `Tx` value); `signedAt` is a `Date.now()`
millisecond timestamp. -/
structure TransferState where
  step : TransferStep
  destinationPubkey : Str
  originalAuthPubkey : Str
  partiallySignedTx : Option Tx
  profileKey : Str
  profileCreatedAt : Int
  profileKeyThreshold : Nat
  signedAt : Option Nat
  error : Option Str
deriving DecidableEq, Repr

/-- The initial session state `initialTransferState` (lines 28-38). -/
def initialTransferState : TransferState :=
  { step := .idle
    destinationPubkey := []
    originalAuthPubkey := []
    partiallySignedTx := none
    profileKey := []
    profileCreatedAt := 0
    profileKeyThreshold := 1
    signedAt := none
    error := none }

/-- The constant `BLOCKHASH_VALIDITY_SECONDS` (line 41). -/
def BLOCKHASH_VALIDITY_SECONDS : Nat := 42

/-- One row of a profile's key list: key, permission flags
(`ProfilePermissions.fromPermissions`), expiry. -/
structure ProfileKeyEntry where
  key : Pubkey
  auth : Bool
  addKeys : Bool
  removeKeys : Bool
  expireTime : Int
deriving DecidableEq, Repr

/-- A `PlayerProfile` as read by the component: address, `data.createdAt`,
`data.keyThreshold`, ordered key list. -/
structure Profile where
  key : Pubkey
  createdAt : Int
  keyThreshold : Nat
  profileKeys : List ProfileKeyEntry
deriving DecidableEq, Repr

/-- A dispatched `PlayerProfile.removeKeys` mutation, recording the targeted
profile and the `[keyIndex, keyIndex + 1]` index range (line 214). -/
structure RemoveKeyMutation where
  mutProfileKey : Str
  rangeStart : Nat
  rangeEnd : Nat
deriving DecidableEq, Repr

/-- The network environment: the profiles a successful
`readAllFromRPC` returns for the connected wallet. -/
structure Env where
  netProfiles : List Profile
deriving DecidableEq, Repr

/-- The component state plus observation logs:
`submitted` records every `connection.sendRawTransaction` call,
`deleteLog` every dispatched remove-key mutation,
`fetchCount` every network profile read performed by `fetchProfiles`,
`now` the `Date.now()` clock in milliseconds. -/
structure World where
  transferState : TransferState
  connectedWallet : Option Pubkey
  modalOpen : Bool
  selectedProfile : Option Profile
  profiles : List Profile
  submitted : List Tx
  deleteLog : List RemoveKeyMutation
  fetchCount : Nat
  now : Nat
deriving DecidableEq, Repr

/-- The initial mount: no wallet, no session, nothing fetched. -/
def initialWorld : World :=
  { transferState := initialTransferState
    connectedWallet := none
    modalOpen := false
    selectedProfile := none
    profiles := []
    submitted := []
    deleteLog := []
    fetchCount := 0
    now := 0 }

/-- The derived flag `isTransferInProgress` (lines 62-66), computed from `step`. -/
def isTransferInProgress (s : TransferStep) : Bool :=
  s == .connect_destination || s == .sign_destination ||
  s == .expired || s == .complete

/-- Embedding of `wallet.publicKey?.toBase58()` as an optional string. -/
def currentB58 (w : World) : Option Str := w.connectedWallet.map toB58

/-- Error message texts of the source (lines 270, 275, 84, 410; the
`Failed to sign:`/`Failed:` messages wrap the thrown error's text). -/
def invalidAddressMsg : Str := "Invalid Solana address".data

def sameAsCurrentMsg : Str :=
  "Destination cannot be the same as current wallet".data

def expiredMsg : Str :=
  "Transaction expired. The blockhash is no longer valid. Please restart the transfer.".data

def connectDestinationPromptMsg : Str :=
  "Please connect the destination wallet to continue".data

def failedSignParseMsg : Str :=
  "Failed to sign: Invalid public key input".data

def failedSignNotAuthMsg : Str :=
  "Failed to sign: Current wallet is not an auth key".data

def failedSignRejectedMsg : Str :=
  "Failed to sign: user rejected the request".data

def failedDestSignMsg : Str :=
  "Failed: user rejected the request".data

def failedDestConfirmMsg : Str :=
  "Failed: unable to confirm transaction".data

/-- The wrong-wallet message (line 193):
`Wrong wallet connected. Expected: ${dest.slice(0, 4)}...${dest.slice(-4)}`. -/
def wrongWalletMsg (dest : Str) : Str :=
  "Wrong wallet connected. Expected: ".data ++ dest.take 4 ++ "...".data ++
    dest.drop (dest.length - 4)

/-- The countdown effect body `updateTimer` (lines 69-97): when `signedAt` is
set and the step is neither `complete` nor `expired`, compute
`elapsed = floor((now - signedAt) / 1000)`; once
`BLOCKHASH_VALIDITY_SECONDS - elapsed <= 0` force the step to `expired` with
the expiry message.  (`timeRemaining` is display-only and not modelled.) -/
def updateTimer (w : World) : World :=
  match w.transferState.signedAt with
  | none => w
  | some t =>
    match w.transferState.step with
    | .complete => w
    | .expired => w
    | _ =>
      if BLOCKHASH_VALIDITY_SECONDS ≤ (w.now - t) / 1000 then
        { w with transferState :=
            { w.transferState with step := .expired, error := some expiredMsg } }
      else w

/-- The wallet-watch effect (lines 180-199): if the step is
`connect_destination` and a wallet is connected, advance to
`sign_destination` (clearing the error) when it is the destination, else
record the wrong-wallet error unless it is the original auth wallet. -/
def walletWatchEffect (w : World) : World :=
  match w.connectedWallet with
  | none => w
  | some cw =>
    if w.transferState.step = .connect_destination then
      if toB58 cw = w.transferState.destinationPubkey then
        { w with transferState :=
            { w.transferState with step := .sign_destination, error := none } }
      else if toB58 cw ≠ w.transferState.originalAuthPubkey then
        { w with transferState :=
            { w.transferState with
              error := some (wrongWalletMsg w.transferState.destinationPubkey) } }
      else w
    else w

/-- The `fetchProfiles` callback (lines 109-173): returns immediately while
`isTransferInProgress`; otherwise, with a wallet connected, performs the
network read (counted in `fetchCount`) and replaces the profile list.  The
debug-info branches (program missing, read error) only set display text and
are elided. -/
def fetchProfilesFn (env : Env) (w : World) : World :=
  if isTransferInProgress w.transferState.step then w
  else
    match w.connectedWallet with
    | none => w
    | some _ =>
      { w with profiles := env.netProfiles, fetchCount := w.fetchCount + 1 }

/-- The `openTransferModal` handler (lines 237-248).  The `Transfer Auth` button is
rendered only in the profile table (`!isTransferInProgress`, no modal
overlay) on a row whose key is an auth key equal to the connected wallet
(line 992, `isAuth && isMe`). -/
def openTransferModalFn (pIdx : Nat) (w : World) : World :=
  if w.modalOpen then w
  else if isTransferInProgress w.transferState.step then w
  else
    match w.connectedWallet with
    | none => w
    | some cw =>
      match w.profiles.get? pIdx with
      | none => w
      | some p =>
        if p.profileKeys.any (fun e => e.auth && toB58 e.key == toB58 cw) then
          { w with
            transferState :=
              { initialTransferState with
                step := .enter_destination
                originalAuthPubkey := toB58 cw
                profileKey := toB58 p.key
                profileCreatedAt := p.createdAt
                profileKeyThreshold := p.keyThreshold }
            selectedProfile := some p
            modalOpen := true }
        else w

/-- The `closeTransferModal` handler (lines 250-261): close the modal, drop the selected
profile, reset the session to `initialTransferState`. -/
def closeTransferModalFn (w : World) : World :=
  if w.modalOpen then
    { w with modalOpen := false, selectedProfile := none,
             transferState := initialTransferState }
  else w

/-- The destination input's `onChange` (line 512): store the raw input and
clear the error.  Rendered only in `enter_destination`. -/
def setDestinationFn (s : Str) (w : World) : World :=
  if w.transferState.step = .enter_destination then
    { w with transferState :=
        { w.transferState with destinationPubkey := s, error := none } }
  else w

/-- The `handleDestinationSubmit` handler (lines 263-280): validate the trimmed input
with `new PublicKey`, reject when it equals the connected wallet's address,
otherwise advance to `sign_current` clearing the error.  The `Continue`
button is rendered in `enter_destination` and disabled on a
whitespace-only input. -/
def handleDestinationSubmitFn (w : World) : World :=
  if w.transferState.step = .enter_destination then
    if trimL w.transferState.destinationPubkey = [] then w
    else
      let dest := trimL w.transferState.destinationPubkey
      match parsePubkey dest with
      | none =>
        { w with transferState :=
            { w.transferState with error := some invalidAddressMsg } }
      | some _ =>
        if currentB58 w = some dest then
          { w with transferState :=
              { w.transferState with error := some sameAsCurrentMsg } }
        else
          { w with transferState :=
              { w.transferState with step := .sign_current, error := none } }
  else w

/-- The `Back` button of the `sign_current` card (line 573): return to
`enter_destination`, clearing the error. -/
def backToEnterDestinationFn (w : World) : World :=
  if w.transferState.step = .sign_current then
    { w with transferState :=
        { w.transferState with step := .enter_destination, error := none } }
  else w

/-- The `handleRestartTransfer` handler (lines 282-291): back to `sign_current`,
clearing `partiallySignedTx`, `signedAt` and `error`.  The
`Restart Transfer` button is rendered only in the `expired` card. -/
def handleRestartTransferFn (w : World) : World :=
  if w.transferState.step = .expired then
    { w with transferState :=
        { w.transferState with
          step := .sign_current
          partiallySignedTx := none
          signedAt := none
          error := none } }
  else w

/-- The `handleSignWithCurrentWallet` handler (lines 308-401), rendered in
`sign_current`: parse the (untrimmed) stored destination with
`new PublicKey` (line 313), find the connected wallet's auth-key index,
build the adjust-auth transaction (fee payer and required second signer =
destination, first signer = connected wallet), partially sign it, and on
success store it serialized, record `signedAt = Date.now()`, and advance to
`connect_destination` clearing the error.  Any throw is caught and recorded
as a `Failed to sign:` error without advancing.  `signOk` models whether the
wallet's `signTransaction` succeeds. -/
def handleSignWithCurrentWalletFn (signOk : Bool) (w : World) : World :=
  if w.transferState.step = .sign_current then
    match w.connectedWallet, w.selectedProfile with
    | some cw, some prof =>
      match parsePubkey w.transferState.destinationPubkey with
      | none =>
        { w with transferState :=
            { w.transferState with error := some failedSignParseMsg } }
      | some newAuth =>
        match prof.profileKeys.findIdx? (fun k => toB58 k.key == toB58 cw && k.auth) with
        | none =>
          { w with transferState :=
              { w.transferState with error := some failedSignNotAuthMsg } }
        | some i =>
          if signOk then
            { w with transferState :=
                { w.transferState with
                  step := .connect_destination
                  partiallySignedTx := some
                    { feePayer := newAuth
                      newAuthKey := newAuth
                      signerKey := cw
                      requiredSigners := [newAuth, cw]
                      signatures := [cw]
                      txProfileKey := toB58 prof.key
                      keyIndexStart := i
                      keyIndexEnd := i + 1 }
                  signedAt := some w.now
                  error := none } }
          else
            { w with transferState :=
                { w.transferState with error := some failedSignRejectedMsg } }
    | _, _ => w
  else w

/-- The `Continue to Sign` button of the `connect_destination` card
(lines 710-717), rendered when the connected wallet equals the destination:
set the step to `sign_destination` (nothing else changes). -/
def continueToSignFn (w : World) : World :=
  if w.transferState.step = .connect_destination then
    match w.connectedWallet with
    | some cw =>
      if toB58 cw = w.transferState.destinationPubkey then
        { w with transferState :=
            { w.transferState with step := .sign_destination } }
      else w
    | none => w
  else w

/-- The `handleSignWithDestinationWallet` handler (lines 403-458), rendered in
`sign_destination`: return unless a wallet is connected and
`partiallySignedTx` is set; record an error if the connected wallet is not
the destination; otherwise deserialize the stored transaction, sign it with
the connected wallet, invoke `sendRawTransaction` (recorded in `submitted`),
and on confirmation advance to `complete` clearing the error.  Failures are
recorded as errors without advancing.  Note: the handler never consults
`signedAt` or the clock. -/
def handleSignWithDestinationWalletFn (signOk confirmOk : Bool) (w : World) : World :=
  if w.transferState.step = .sign_destination then
    match w.connectedWallet, w.transferState.partiallySignedTx with
    | some cw, some ptx =>
      if toB58 cw ≠ w.transferState.destinationPubkey then
        { w with transferState :=
            { w.transferState with error := some connectDestinationPromptMsg } }
      else
        if signOk then
          let fullTx := { ptx with signatures := cw :: ptx.signatures }
          let w' := { w with submitted := w.submitted ++ [fullTx] }
          if confirmOk then
            { w' with transferState :=
                { w'.transferState with step := .complete, error := none } }
          else
            { w' with transferState :=
                { w'.transferState with error := some failedDestConfirmMsg } }
        else
          { w with transferState :=
              { w.transferState with error := some failedDestSignMsg } }
    | _, _ => w
  else w

/-- The `handleDeleteKey` handler (lines 201-235).  The `Delete` button is rendered only
in the profile table (`!isTransferInProgress`, no modal overlay) and only on
rows whose key is not an auth key (line 1001, `!isAuth`); the handler
requires a connected wallet.  It dispatches one remove-keys mutation with
index range `[kIdx, kIdx + 1]` and then refetches the profiles. -/
def handleDeleteKeyFn (env : Env) (pIdx kIdx : Nat) (w : World) : World :=
  if w.modalOpen then w
  else if isTransferInProgress w.transferState.step then w
  else
    match w.connectedWallet with
    | none => w
    | some _ =>
      match w.profiles.get? pIdx with
      | none => w
      | some p =>
        match p.profileKeys.get? kIdx with
        | none => w
        | some e =>
          if e.auth then w
          else
            fetchProfilesFn env
              { w with deleteLog := w.deleteLog ++
                  [{ mutProfileKey := toB58 p.key, rangeStart := kIdx,
                     rangeEnd := kIdx + 1 }] }

/-- The observable events of the component: wallet connection changes, the
wallet-watch effect firing, the timer tick, the clock advancing, and each
user-triggered handler. -/
inductive Event where
  | walletChange (o : Option Pubkey)
  | walletEffect
  | fetchProfiles
  | openTransfer (pIdx : Nat)
  | setDestination (s : Str)
  | submitDestination
  | backToEnterDestination
  | signCurrent (signOk : Bool)
  | continueToSign
  | signDestination (signOk confirmOk : Bool)
  | timerTick
  | restartTransfer
  | closeModal
  | deleteKey (pIdx kIdx : Nat)
  | advanceTime (dt : Nat)
deriving DecidableEq, Repr

/-- The step function: dispatch one event to its handler. -/
def applyEvent (env : Env) (e : Event) (w : World) : World :=
  match e with
  | .walletChange o => { w with connectedWallet := o }
  | .walletEffect => walletWatchEffect w
  | .fetchProfiles => fetchProfilesFn env w
  | .openTransfer pIdx => openTransferModalFn pIdx w
  | .setDestination s => setDestinationFn s w
  | .submitDestination => handleDestinationSubmitFn w
  | .backToEnterDestination => backToEnterDestinationFn w
  | .signCurrent signOk => handleSignWithCurrentWalletFn signOk w
  | .continueToSign => continueToSignFn w
  | .signDestination signOk confirmOk =>
      handleSignWithDestinationWalletFn signOk confirmOk w
  | .timerTick => updateTimer w
  | .restartTransfer => handleRestartTransferFn w
  | .closeModal => closeTransferModalFn w
  | .deleteKey pIdx kIdx => handleDeleteKeyFn env pIdx kIdx w
  | .advanceTime dt => { w with now := w.now + dt }

/-- Run an event sequence from the initial mount. -/
def run (env : Env) (evs : List Event) : World :=
  evs.foldl (fun w e => applyEvent env e w) initialWorld

/-! ### Derived predicates used by the verified properties -/

/-- A transaction carries every signature it requires. -/
def txFullySigned (tx : Tx) : Prop :=
  ∀ r ∈ tx.requiredSigners, r ∈ tx.signatures

/-- Invariant for the no-premature-submission property: every submitted
transaction is fully signed; a stored partial transaction targets the
session's destination and lacks at most the destination's signature; and no
partial transaction exists before the first signature step has completed. -/
def SubmitInv (w : World) : Prop :=
  (∀ tx ∈ w.submitted, txFullySigned tx) ∧
  (∀ tx, w.transferState.partiallySignedTx = some tx →
     toB58 tx.newAuthKey = w.transferState.destinationPubkey ∧
     ∀ r ∈ tx.requiredSigners, r = tx.newAuthKey ∨ r ∈ tx.signatures) ∧
  ((w.transferState.step = .enter_destination ∨
    w.transferState.step = .sign_current) →
     w.transferState.partiallySignedTx = none)

/-- A dispatched remove-key mutation targets, in the fetched profile list, a
single-index range holding a key whose auth flag is false. -/
def mutationOkB (env : Env) (m : RemoveKeyMutation) : Bool :=
  env.netProfiles.any (fun p =>
    toB58 p.key == m.mutProfileKey &&
    m.rangeEnd == m.rangeStart + 1 &&
    (match p.profileKeys.get? m.rangeStart with
     | some e => !e.auth
     | none => false))

/-- Every dispatched remove-key mutation satisfies `mutationOkB`. -/
def deleteLogOkB (env : Env) (w : World) : Bool :=
  w.deleteLog.all (mutationOkB env)

/-- The successful forward transitions named by the specification's
state-machine table. -/
def forwardPair : TransferStep → TransferStep → Bool
  | .enter_destination, .sign_current => true
  | .sign_current, .connect_destination => true
  | .connect_destination, .sign_destination => true
  | .sign_destination, .complete => true
  | .expired, .sign_current => true
  | _, _ => false

/-! ### Concrete data for witnesses and counterexamples -/

/-- Original auth wallet `A`. -/
def pkA : Pubkey := ⟨List.replicate 32 'A', by decide⟩

/-- A third, unrelated wallet `C`. -/
def pkC : Pubkey := ⟨List.replicate 32 'C', by decide⟩

/-- Destination wallet `D`. -/
def pkD : Pubkey := ⟨List.replicate 32 'D', by decide⟩

/-- Another unrelated wallet `E`. -/
def pkE : Pubkey := ⟨List.replicate 32 'E', by decide⟩

/-- A non-auth key on the profile. -/
def pkB2 : Pubkey := ⟨List.replicate 32 '2', by decide⟩

/-- The profile's own address. -/
def pkP : Pubkey := ⟨List.replicate 32 'P', by decide⟩

/-- A profile whose auth key is `A`, with one further non-auth key. -/
def profile0 : Profile :=
  { key := pkP, createdAt := 0, keyThreshold := 1,
    profileKeys :=
      [{ key := pkA, auth := true, addKeys := true, removeKeys := true,
         expireTime := -1 },
       { key := pkB2, auth := false, addKeys := false, removeKeys := true,
         expireTime := -1 }] }

/-- A network holding exactly `profile0`. -/
def env0 : Env := ⟨[profile0]⟩

/-- The happy path up to `sign_destination`: connect `A`, fetch, open the
transfer, enter `D`, submit, first signature, switch to `D`, auto-advance. -/
def evsToSignDest : List Event :=
  [.walletChange (some pkA), .fetchProfiles, .openTransfer 0,
   .setDestination (toB58 pkD), .submitDestination, .signCurrent true,
   .walletChange (some pkD), .walletEffect]

/-- The full happy path, ending with the destination signing and submitting. -/
def evsHappy : List Event :=
  evsToSignDest ++ [.signDestination true true]

/-- The transaction the happy path submits. -/
def txHappy : Tx :=
  { feePayer := pkD, newAuthKey := pkD, signerKey := pkA,
    requiredSigners := [pkD, pkA], signatures := [pkD, pkA],
    txProfileKey := toB58 pkP, keyIndexStart := 0, keyIndexEnd := 1 }

/-- The partially signed transaction stored after the first signature of the
happy path. -/
def txPartialHappy : Tx :=
  { feePayer := pkD, newAuthKey := pkD, signerKey := pkA,
    requiredSigners := [pkD, pkA], signatures := [pkA],
    txProfileKey := toB58 pkP, keyIndexStart := 0, keyIndexEnd := 1 }

/-- A destination input carrying a leading space in front of a valid
address. -/
def dWS : Str := ' ' :: toB58 pkD

/-- Entering the whitespace-bearing destination input. -/
def evsC10 : List Event :=
  [.walletChange (some pkA), .fetchProfiles, .openTransfer 0,
   .setDestination dWS]

/-- A session stuck in `connect_destination` with the whitespace-bearing
destination stored and the destination wallet connected. -/
def wC10cd : World :=
  { initialWorld with
    transferState :=
      { initialTransferState with
        step := .connect_destination
        destinationPubkey := dWS
        originalAuthPubkey := toB58 pkA }
    connectedWallet := some pkD }

/-- A session in `sign_destination` with the whitespace-bearing destination
stored, a partial transaction present and the destination wallet
connected. -/
def wC10sd : World :=
  { initialWorld with
    transferState :=
      { initialTransferState with
        step := .sign_destination
        destinationPubkey := dWS
        originalAuthPubkey := toB58 pkA
        partiallySignedTx := some txPartialHappy }
    connectedWallet := some pkD }

/-- Invariant for the auth-key deletion guard: the displayed profile list is
the fetched one (or still empty), and every dispatched remove-key mutation
targets a non-auth key. -/
def DeleteInv (env : Env) (w : World) : Prop :=
  (w.profiles = [] ∨ w.profiles = env.netProfiles) ∧
  deleteLogOkB env w = true


theorem parsePubkey_val {l : Str} {p : Pubkey} (h : parsePubkey l = some p) :
    p.val = l := by
  unfold parsePubkey at h
  split at h
  · cases h; rfl
  · cases h

theorem parsePubkey_none_iff {l : Str} :
    parsePubkey l = none ↔ validB58 l = false := by
  unfold parsePubkey
  split
  · next h => simp [h]
  · next h => simp [Bool.not_eq_true] at h; simp [h]

theorem run_preserves (env : Env) (P : World → Prop) (h0 : P initialWorld)
    (hstep : ∀ e w, P w → P (applyEvent env e w)) (evs : List Event) :
    P (run env evs) := by
  unfold run
  suffices h : ∀ w, P w → P (evs.foldl (fun w e => applyEvent env e w) w) from
    h _ h0
  induction evs with
  | nil => intro w hw; exact hw
  | cons e t ih => intro w hw; exact ih _ (hstep e w hw)

theorem submitInv_init : SubmitInv initialWorld := by
  refine ⟨?_, ?_, ?_⟩ <;> simp [initialWorld, initialTransferState]

theorem submitInv_step (env : Env) (e : Event) (w : World)
    (hw : SubmitInv w) : SubmitInv (applyEvent env e w) := by
  obtain ⟨hsub, hpart, hearly⟩ := hw
  cases e with
  | walletChange o => exact ⟨hsub, hpart, hearly⟩
  | advanceTime dt => exact ⟨hsub, hpart, hearly⟩
  | fetchProfiles =>
      simp only [applyEvent, fetchProfilesFn]
      split
      · exact ⟨hsub, hpart, hearly⟩
      · split
        · exact ⟨hsub, hpart, hearly⟩
        · exact ⟨hsub, hpart, hearly⟩
  | walletEffect =>
      simp only [applyEvent, walletWatchEffect]
      split
      · exact ⟨hsub, hpart, hearly⟩
      · split
        · split
          · exact ⟨hsub, hpart, fun hor => by rcases hor with h | h <;> simp at h⟩
          · split
            · exact ⟨hsub, hpart, hearly⟩
            · exact ⟨hsub, hpart, hearly⟩
        · exact ⟨hsub, hpart, hearly⟩
  | openTransfer pIdx =>
      simp only [applyEvent, openTransferModalFn]
      split
      · exact ⟨hsub, hpart, hearly⟩
      · split
        · exact ⟨hsub, hpart, hearly⟩
        · split
          · exact ⟨hsub, hpart, hearly⟩
          · split
            · exact ⟨hsub, hpart, hearly⟩
            · split
              · exact ⟨hsub, by simp [initialTransferState], fun _ => rfl⟩
              · exact ⟨hsub, hpart, hearly⟩
  | setDestination s =>
      simp only [applyEvent, setDestinationFn]
      split
      · next hstep =>
          exact ⟨hsub, by simp [hearly (Or.inl hstep)],
                 fun _ => hearly (Or.inl hstep)⟩
      · exact ⟨hsub, hpart, hearly⟩
  | submitDestination =>
      simp only [applyEvent, handleDestinationSubmitFn]
      split
      · next hstep =>
          split
          · exact ⟨hsub, hpart, hearly⟩
          · split
            · exact ⟨hsub, hpart, fun _ => hearly (Or.inl hstep)⟩
            · split
              · exact ⟨hsub, hpart, fun _ => hearly (Or.inl hstep)⟩
              · exact ⟨hsub, hpart, fun _ => hearly (Or.inl hstep)⟩
      · exact ⟨hsub, hpart, hearly⟩
  | backToEnterDestination =>
      simp only [applyEvent, backToEnterDestinationFn]
      split
      · next hstep =>
          exact ⟨hsub, hpart, fun _ => hearly (Or.inr hstep)⟩
      · exact ⟨hsub, hpart, hearly⟩
  | restartTransfer =>
      simp only [applyEvent, handleRestartTransferFn]
      split
      · exact ⟨hsub, by simp, fun _ => rfl⟩
      · exact ⟨hsub, hpart, hearly⟩
  | closeModal =>
      simp only [applyEvent, closeTransferModalFn]
      split
      · exact ⟨hsub, by simp [initialTransferState], fun _ => rfl⟩
      · exact ⟨hsub, hpart, hearly⟩
  | timerTick =>
      simp only [applyEvent, updateTimer]
      split
      · exact ⟨hsub, hpart, hearly⟩
      · split
        · exact ⟨hsub, hpart, hearly⟩
        · exact ⟨hsub, hpart, hearly⟩
        · split
          · exact ⟨hsub, hpart, fun hor => by rcases hor with h | h <;> simp at h⟩
          · exact ⟨hsub, hpart, hearly⟩
  | continueToSign =>
      simp only [applyEvent, continueToSignFn]
      split
      · split
        · split
          · exact ⟨hsub, hpart, fun hor => by rcases hor with h | h <;> simp at h⟩
          · exact ⟨hsub, hpart, hearly⟩
        · exact ⟨hsub, hpart, hearly⟩
      · exact ⟨hsub, hpart, hearly⟩
  | deleteKey pIdx kIdx =>
      simp only [applyEvent, handleDeleteKeyFn]
      split
      · exact ⟨hsub, hpart, hearly⟩
      · split
        · exact ⟨hsub, hpart, hearly⟩
        · split
          · exact ⟨hsub, hpart, hearly⟩
          · split
            · exact ⟨hsub, hpart, hearly⟩
            · split
              · exact ⟨hsub, hpart, hearly⟩
              · split
                · exact ⟨hsub, hpart, hearly⟩
                · simp only [fetchProfilesFn]
                  split
                  · exact ⟨hsub, hpart, hearly⟩
                  · split
                    · exact ⟨hsub, hpart, hearly⟩
                    · exact ⟨hsub, hpart, hearly⟩
  | signCurrent signOk =>
      simp only [applyEvent, handleSignWithCurrentWalletFn]
      split
      · next hstep =>
          split
          · next cw prof hcw =>
              split
              · exact ⟨hsub, hpart, fun _ => hearly (Or.inr hstep)⟩
              · next newAuth hparse =>
                  split
                  · exact ⟨hsub, hpart, fun _ => hearly (Or.inr hstep)⟩
                  · split
                    · refine ⟨hsub, ?_, fun hor => by rcases hor with h | h <;> simp at h⟩
                      intro tx htx
                      simp only [Option.some.injEq] at htx
                      subst htx
                      refine ⟨parsePubkey_val hparse, ?_⟩
                      intro r hr
                      simp only [List.mem_cons, List.not_mem_nil, or_false] at hr
                      rcases hr with h | h
                      · exact Or.inl h
                      · exact Or.inr (by simp [h])
                    · exact ⟨hsub, hpart, fun _ => hearly (Or.inr hstep)⟩
          · exact ⟨hsub, hpart, hearly⟩
      · exact ⟨hsub, hpart, hearly⟩
  | signDestination signOk confirmOk =>
      simp only [applyEvent, handleSignWithDestinationWalletFn]
      split
      · next hstep =>
          split
          · next cw ptx hcw hptx =>
              split
              · exact ⟨hsub, hpart, hearly⟩
              · next hnotne =>
                  have hcwdest : toB58 cw = w.transferState.destinationPubkey :=
                    not_not.mp hnotne
                  obtain ⟨hdest, hreq⟩ := hpart ptx hptx
                  have hkey : ptx.newAuthKey = cw :=
                    Subtype.ext (hdest.trans hcwdest.symm)
                  have hfull : txFullySigned
                      { ptx with signatures := cw :: ptx.signatures } := by
                    intro r hr
                    rcases hreq r hr with h | h
                    · simp [h, hkey]
                    · simp [List.mem_cons, h]
                  have hsub' : ∀ tx ∈ w.submitted ++
                      [{ ptx with signatures := cw :: ptx.signatures }],
                      txFullySigned tx := by
                    intro tx htx
                    rcases List.mem_append.mp htx with h | h
                    · exact hsub tx h
                    · rcases List.mem_singleton.mp h with rfl
                      exact hfull
                  split
                  · split
                    · exact ⟨hsub', hpart, fun hor => by
                        rcases hor with h | h <;> simp at h⟩
                    · exact ⟨hsub', hpart, hearly⟩
                  · exact ⟨hsub, hpart, hearly⟩
          · exact ⟨hsub, hpart, hearly⟩
      · exact ⟨hsub, hpart, hearly⟩

theorem deleteInv_init (env : Env) : DeleteInv env initialWorld :=
  ⟨Or.inl rfl, rfl⟩

theorem deleteInv_step (env : Env) (e : Event) (w : World)
    (hw : DeleteInv env w) : DeleteInv env (applyEvent env e w) := by
  obtain ⟨hprof, hlog⟩ := hw
  have hfetch : ∀ w' : World,
      (w'.profiles = [] ∨ w'.profiles = env.netProfiles) →
      deleteLogOkB env w' = true → DeleteInv env (fetchProfilesFn env w') := by
    intro w' hp hl
    unfold fetchProfilesFn
    split
    · exact ⟨hp, hl⟩
    · split
      · exact ⟨hp, hl⟩
      · exact ⟨Or.inr rfl, hl⟩
  cases e with
  | walletChange o => exact ⟨hprof, hlog⟩
  | advanceTime dt => exact ⟨hprof, hlog⟩
  | walletEffect =>
      simp only [applyEvent, walletWatchEffect]
      split
      · exact ⟨hprof, hlog⟩
      · split
        · split
          · exact ⟨hprof, hlog⟩
          · split
            · exact ⟨hprof, hlog⟩
            · exact ⟨hprof, hlog⟩
        · exact ⟨hprof, hlog⟩
  | fetchProfiles =>
      exact hfetch w hprof hlog
  | openTransfer pIdx =>
      simp only [applyEvent, openTransferModalFn]
      split
      · exact ⟨hprof, hlog⟩
      · split
        · exact ⟨hprof, hlog⟩
        · split
          · exact ⟨hprof, hlog⟩
          · split
            · exact ⟨hprof, hlog⟩
            · split
              · exact ⟨hprof, hlog⟩
              · exact ⟨hprof, hlog⟩
  | setDestination s =>
      simp only [applyEvent, setDestinationFn]
      split
      · exact ⟨hprof, hlog⟩
      · exact ⟨hprof, hlog⟩
  | submitDestination =>
      simp only [applyEvent, handleDestinationSubmitFn]
      split
      · split
        · exact ⟨hprof, hlog⟩
        · split
          · exact ⟨hprof, hlog⟩
          · split
            · exact ⟨hprof, hlog⟩
            · exact ⟨hprof, hlog⟩
      · exact ⟨hprof, hlog⟩
  | backToEnterDestination =>
      simp only [applyEvent, backToEnterDestinationFn]
      split
      · exact ⟨hprof, hlog⟩
      · exact ⟨hprof, hlog⟩
  | signCurrent signOk =>
      simp only [applyEvent, handleSignWithCurrentWalletFn]
      split
      · split
        · split
          · exact ⟨hprof, hlog⟩
          · split
            · exact ⟨hprof, hlog⟩
            · split
              · exact ⟨hprof, hlog⟩
              · exact ⟨hprof, hlog⟩
        · exact ⟨hprof, hlog⟩
      · exact ⟨hprof, hlog⟩
  | continueToSign =>
      simp only [applyEvent, continueToSignFn]
      split
      · split
        · split
          · exact ⟨hprof, hlog⟩
          · exact ⟨hprof, hlog⟩
        · exact ⟨hprof, hlog⟩
      · exact ⟨hprof, hlog⟩
  | signDestination signOk confirmOk =>
      simp only [applyEvent, handleSignWithDestinationWalletFn]
      split
      · split
        · split
          · exact ⟨hprof, hlog⟩
          · split
            · split
              · exact ⟨hprof, hlog⟩
              · exact ⟨hprof, hlog⟩
            · exact ⟨hprof, hlog⟩
        · exact ⟨hprof, hlog⟩
      · exact ⟨hprof, hlog⟩
  | timerTick =>
      simp only [applyEvent, updateTimer]
      split
      · exact ⟨hprof, hlog⟩
      · split
        · exact ⟨hprof, hlog⟩
        · exact ⟨hprof, hlog⟩
        · split
          · exact ⟨hprof, hlog⟩
          · exact ⟨hprof, hlog⟩
  | restartTransfer =>
      simp only [applyEvent, handleRestartTransferFn]
      split
      · exact ⟨hprof, hlog⟩
      · exact ⟨hprof, hlog⟩
  | closeModal =>
      simp only [applyEvent, closeTransferModalFn]
      split
      · exact ⟨hprof, hlog⟩
      · exact ⟨hprof, hlog⟩
  | deleteKey pIdx kIdx =>
      simp only [applyEvent, handleDeleteKeyFn]
      split
      · exact ⟨hprof, hlog⟩
      · split
        · exact ⟨hprof, hlog⟩
        · split
          · exact ⟨hprof, hlog⟩
          · next hcw =>
              split
              · exact ⟨hprof, hlog⟩
              · next p hp =>
                  split
                  · exact ⟨hprof, hlog⟩
                  · next e he =>
                      split
                      · exact ⟨hprof, hlog⟩
                      · next hauth =>
                          have hmem : p ∈ env.netProfiles := by
                            rcases hprof with h | h
                            · rw [h] at hp; simp at hp
                            · rw [h] at hp; exact List.get?_mem hp
                          have hmut : mutationOkB env
                              { mutProfileKey := toB58 p.key,
                                rangeStart := kIdx, rangeEnd := kIdx + 1 } = true := by
                            unfold mutationOkB
                            refine List.any_eq_true.mpr ⟨p, hmem, ?_⟩
                            simp only [Bool.not_eq_true] at hauth
                            simp only [List.get?_eq_getElem?] at he
                            simp [he, hauth]
                          refine hfetch _ hprof ?_
                          unfold deleteLogOkB at hlog ⊢
                          simp only [List.all_append, List.all_cons, List.all_nil,
                            Bool.and_true]
                          rw [hlog, hmut]
                          rfl

theorem forwardPair_self (s : TransferStep) : forwardPair s s = false := by
  cases s <;> rfl

theorem forwardPair_to_expired (s : TransferStep) :
    forwardPair s .expired = false := by cases s <;> rfl

theorem forwardPair_to_enter (s : TransferStep) :
    forwardPair s .enter_destination = false := by cases s <;> rfl

theorem forwardPair_to_idle (s : TransferStep) :
    forwardPair s .idle = false := by cases s <;> rfl

theorem C4aux1 (env : Env) (e : Event) (w : World)
    (hne : e ≠ Event.continueToSign) :
    forwardPair w.transferState.step
      (applyEvent env e w).transferState.step = true →
    (applyEvent env e w).transferState.error = none := by
  cases e with
  | continueToSign => exact absurd rfl hne
  | walletChange o => intro hf; simp [applyEvent, forwardPair_self] at hf
  | advanceTime dt => intro hf; simp [applyEvent, forwardPair_self] at hf
  | walletEffect =>
      simp only [applyEvent, walletWatchEffect]
      split
      · intro hf; simp [forwardPair_self] at hf
      · split
        · split
          · intro _; rfl
          · split
            · intro hf; simp [forwardPair_self] at hf
            · intro hf; simp [forwardPair_self] at hf
        · intro hf; simp [forwardPair_self] at hf
  | fetchProfiles =>
      simp only [applyEvent, fetchProfilesFn]
      split
      · intro hf; simp [forwardPair_self] at hf
      · split
        · intro hf; simp [forwardPair_self] at hf
        · intro hf; simp [forwardPair_self] at hf
  | openTransfer pIdx =>
      simp only [applyEvent, openTransferModalFn]
      split
      · intro hf; simp [forwardPair_self] at hf
      · split
        · intro hf; simp [forwardPair_self] at hf
        · split
          · intro hf; simp [forwardPair_self] at hf
          · split
            · intro hf; simp [forwardPair_self] at hf
            · split
              · intro hf; simp [forwardPair_to_enter] at hf
              · intro hf; simp [forwardPair_self] at hf
  | setDestination s =>
      simp only [applyEvent, setDestinationFn]
      split
      · intro hf; simp [forwardPair_self] at hf
      · intro hf; simp [forwardPair_self] at hf
  | submitDestination =>
      simp only [applyEvent, handleDestinationSubmitFn]
      split
      · split
        · intro hf; simp [forwardPair_self] at hf
        · split
          · intro hf; simp [forwardPair_self] at hf
          · split
            · intro hf; simp [forwardPair_self] at hf
            · intro _; rfl
      · intro hf; simp [forwardPair_self] at hf
  | backToEnterDestination =>
      simp only [applyEvent, backToEnterDestinationFn]
      split
      · intro hf; simp [forwardPair_to_enter] at hf
      · intro hf; simp [forwardPair_self] at hf
  | signCurrent signOk =>
      simp only [applyEvent, handleSignWithCurrentWalletFn]
      split
      · split
        · split
          · intro hf; simp [forwardPair_self] at hf
          · split
            · intro hf; simp [forwardPair_self] at hf
            · split
              · intro _; rfl
              · intro hf; simp [forwardPair_self] at hf
        · intro hf; simp [forwardPair_self] at hf
      · intro hf; simp [forwardPair_self] at hf
  | signDestination signOk confirmOk =>
      simp only [applyEvent, handleSignWithDestinationWalletFn]
      split
      · split
        · split
          · intro hf; simp [forwardPair_self] at hf
          · split
            · split
              · intro _; rfl
              · intro hf; simp [forwardPair_self] at hf
            · intro hf; simp [forwardPair_self] at hf
        · intro hf; simp [forwardPair_self] at hf
      · intro hf; simp [forwardPair_self] at hf
  | timerTick =>
      simp only [applyEvent, updateTimer]
      split
      · intro hf; simp [forwardPair_self] at hf
      · split
        · intro hf; simp [forwardPair_self] at hf
        · intro hf; simp [forwardPair_self] at hf
        · split
          · intro hf; simp [forwardPair_to_expired] at hf
          · intro hf; simp [forwardPair_self] at hf
  | restartTransfer =>
      simp only [applyEvent, handleRestartTransferFn]
      split
      · intro _; rfl
      · intro hf; simp [forwardPair_self] at hf
  | closeModal =>
      simp only [applyEvent, closeTransferModalFn]
      split
      · intro hf; simp [initialTransferState, forwardPair_to_idle] at hf
      · intro hf; simp [forwardPair_self] at hf
  | deleteKey pIdx kIdx =>
      simp only [applyEvent, handleDeleteKeyFn]
      split
      · intro hf; simp [forwardPair_self] at hf
      · split
        · intro hf; simp [forwardPair_self] at hf
        · split
          · intro hf; simp [forwardPair_self] at hf
          · split
            · intro hf; simp [forwardPair_self] at hf
            · split
              · intro hf; simp [forwardPair_self] at hf
              · split
                · intro hf; simp [forwardPair_self] at hf
                · simp only [fetchProfilesFn]
                  split
                  · intro hf; simp [forwardPair_self] at hf
                  · split
                    · intro hf; simp [forwardPair_self] at hf
                    · intro hf; simp [forwardPair_self] at hf

theorem C4aux2 (env : Env) (w : World) (cw : Pubkey)
    (hstep : w.transferState.step = .connect_destination)
    (hcw : w.connectedWallet = some cw)
    (hdest : toB58 cw = w.transferState.destinationPubkey) :
    applyEvent env .continueToSign w =
      { w with transferState :=
          { w.transferState with step := .sign_destination } } := by
  simp [applyEvent, continueToSignFn, hstep, hcw, hdest]

theorem C1aux1 (env : Env) (e : Event) (w : World)
    (hexp : w.transferState.step = .expired)
    (hr : e ≠ Event.restartTransfer) (hc : e ≠ Event.closeModal) :
    (applyEvent env e w).transferState.step = .expired := by
  cases e with
  | restartTransfer => exact absurd rfl hr
  | closeModal => exact absurd rfl hc
  | walletChange o => exact hexp
  | advanceTime dt => exact hexp
  | walletEffect =>
      simp [applyEvent, walletWatchEffect, hexp]
      split
      · exact hexp
      · exact hexp
  | fetchProfiles =>
      simp [applyEvent, fetchProfilesFn, isTransferInProgress, hexp]
  | openTransfer pIdx =>
      simp only [applyEvent, openTransferModalFn]
      split
      · exact hexp
      · simp [isTransferInProgress, hexp]
  | setDestination s =>
      simp [applyEvent, setDestinationFn, hexp]
  | submitDestination =>
      simp [applyEvent, handleDestinationSubmitFn, hexp]
  | backToEnterDestination =>
      simp [applyEvent, backToEnterDestinationFn, hexp]
  | signCurrent signOk =>
      simp [applyEvent, handleSignWithCurrentWalletFn, hexp]
  | continueToSign =>
      simp [applyEvent, continueToSignFn, hexp]
  | signDestination signOk confirmOk =>
      simp [applyEvent, handleSignWithDestinationWalletFn, hexp]
  | timerTick =>
      simp only [applyEvent, updateTimer]
      split
      · exact hexp
      · split
        · exact hexp
        · exact hexp
        · next hne =>
            rw [hexp] at hne
            exact (hne rfl).elim
  | deleteKey pIdx kIdx =>
      simp only [applyEvent, handleDeleteKeyFn]
      split
      · exact hexp
      · simp [isTransferInProgress, hexp]

theorem C1aux2 (env : Env) (w : World) (t : Nat)
    (hsig : w.transferState.signedAt = some t)
    (hnc : w.transferState.step ≠ .complete)
    (hne : w.transferState.step ≠ .expired)
    (h42 : BLOCKHASH_VALIDITY_SECONDS ≤ (w.now - t) / 1000) :
    (applyEvent env .timerTick w).transferState.step = .expired := by
  cases hs : w.transferState.step
  case complete => exact absurd hs hnc
  case expired => exact absurd hs hne
  all_goals
    simp only [applyEvent, updateTimer, hsig, hs]
    rw [if_pos h42]

theorem C1aux3 (env : Env) (w : World) (cw : Pubkey) (tx : Tx)
    (hstep : w.transferState.step = .sign_destination)
    (hcw : w.connectedWallet = some cw)
    (hdest : toB58 cw = w.transferState.destinationPubkey)
    (hptx : w.transferState.partiallySignedTx = some tx) :
    (applyEvent env (.signDestination true true) w).transferState.step
        = .complete ∧
    (applyEvent env (.signDestination true true) w).submitted =
      w.submitted ++ [{ tx with signatures := cw :: tx.signatures }] := by
  simp [applyEvent, handleSignWithDestinationWalletFn, hstep, hcw, hdest, hptx]

theorem dropWhile_of_any_false {p : Char → Bool} {l : Str}
    (h : l.any p = false) : l.dropWhile p = l := by
  cases l with
  | nil => rfl
  | cons c t =>
      simp only [List.any_cons, Bool.or_eq_false_iff] at h
      simp [List.dropWhile_cons, h.1]

theorem trimL_eq_of_no_ws {l : Str} (h : l.any isWS = false) :
    trimL l = l := by
  unfold trimL
  rw [dropWhile_of_any_false h]
  rw [dropWhile_of_any_false (by rw [List.any_reverse]; exact h)]
  exact List.reverse_reverse l

theorem ws_not_b58 {c : Char} (h : isWS c = true) : isB58Char c = false := by
  unfold isWS at h
  simp only [Bool.or_eq_true, beq_iff_eq] at h
  rcases h with ((h | h) | h) | h <;> subst h <;> decide

theorem validB58_any_ws_false {l : Str} (h : validB58 l = true) :
    l.any isWS = false := by
  unfold validB58 at h
  simp only [Bool.and_eq_true] at h
  by_contra hc
  simp only [Bool.not_eq_false] at hc
  obtain ⟨c, hmem, hws⟩ := List.any_eq_true.mp hc
  have hb := List.all_eq_true.mp h.2 c hmem
  rw [ws_not_b58 hws] at hb
  cases hb

theorem validB58_false_of_trim_ne {l : Str} (h : trimL l ≠ l) :
    validB58 l = false := by
  by_contra hc
  simp only [Bool.not_eq_false] at hc
  exact h (trimL_eq_of_no_ws (validB58_any_ws_false hc))

/-- Claim C1, counterexample.  After the happy path reaches `sign_destination`
and 43 seconds elapse (past the 42-second window) with no timer tick, the
sign/submit action still succeeds: the step becomes `complete` and a
transaction is submitted.  This refutes the claim that no sign/submit in
`sign_destination` succeeds once `now - signedAt` exceeds the window "because
expiry is re-checked immediately before submission": the submission handler
performs no such re-check. -/
theorem C1_counterexample :
    (run env0 (evsToSignDest ++ [.advanceTime 43000])).transferState.step
        = .sign_destination ∧
    (run env0 (evsToSignDest ++ [.advanceTime 43000])).transferState.signedAt
        = some 0 ∧
    BLOCKHASH_VALIDITY_SECONDS * 1000
        ≤ (run env0 (evsToSignDest ++ [.advanceTime 43000])).now ∧
    (applyEvent env0 (.signDestination true true)
        (run env0 (evsToSignDest ++ [.advanceTime 43000]))).transferState.step
        = .complete ∧
    (applyEvent env0 (.signDestination true true)
        (run env0 (evsToSignDest ++ [.advanceTime 43000]))).submitted.length = 1 := by
  decide

/-- Claim C1, amended.  (1) Once the step is `expired` it stays `expired`
under every event except the explicit restart and closing the modal; (2) a
timer tick fires the transition to `expired` as soon as
`BLOCKHASH_VALIDITY_SECONDS ≤ (now - signedAt) / 1000` (in any live step);
but (3) the destination sign/submit handler never consults the clock: with
the destination wallet connected and a stored partial transaction, it
submits and completes regardless of `now` and `signedAt`, so expiry is
enforced only by the last timer tick, not re-checked before submission. -/
theorem C1_amended :
    (∀ (env : Env) (e : Event) (w : World),
       w.transferState.step = .expired →
       e ≠ Event.restartTransfer → e ≠ Event.closeModal →
       (applyEvent env e w).transferState.step = .expired) ∧
    (∀ (env : Env) (w : World) (t : Nat),
       w.transferState.signedAt = some t →
       w.transferState.step ≠ .complete →
       w.transferState.step ≠ .expired →
       BLOCKHASH_VALIDITY_SECONDS ≤ (w.now - t) / 1000 →
       (applyEvent env .timerTick w).transferState.step = .expired) ∧
    (∀ (env : Env) (w : World) (cw : Pubkey) (tx : Tx),
       w.transferState.step = .sign_destination →
       w.connectedWallet = some cw →
       toB58 cw = w.transferState.destinationPubkey →
       w.transferState.partiallySignedTx = some tx →
       (applyEvent env (.signDestination true true) w).transferState.step
           = .complete ∧
       (applyEvent env (.signDestination true true) w).submitted =
         w.submitted ++ [{ tx with signatures := cw :: tx.signatures }]) :=
  ⟨fun env e w hexp hr hc => C1aux1 env e w hexp hr hc,
   fun env w t hsig hnc hne h42 => C1aux2 env w t hsig hnc hne h42,
   fun env w cw tx hstep hcw hdest hptx =>
     C1aux3 env w cw tx hstep hcw hdest hptx⟩

/-- Witness for C1, instantiating each part of the amended claim on the happy path. -/
theorem C1_witness :
    (applyEvent env0 (.signDestination true true)
        (run env0 (evsToSignDest ++ [.advanceTime 43000, .timerTick]))
      ).transferState.step = .expired ∧
    (applyEvent env0 .timerTick
        (run env0 (evsToSignDest ++ [.advanceTime 43000]))
      ).transferState.step = .expired ∧
    (applyEvent env0 (.signDestination true true)
        (run env0 (evsToSignDest ++ [.advanceTime 43000]))
      ).transferState.step = .complete :=
  ⟨C1_amended.1 env0 (.signDestination true true) _ (by decide) (by decide)
      (by decide),
   C1_amended.2.1 env0 _ 0 (by decide) (by decide) (by decide) (by decide),
   (C1_amended.2.2 env0 _ pkD txPartialHappy (by decide) (by decide)
      (by decide) (by decide)).1⟩

/-- Claim C2, confirmed.  The first-signature handler never submits: it
leaves the `sendRawTransaction` log unchanged in every state.  And along
every event sequence from the initial mount, every transaction ever passed
to `sendRawTransaction` carries all of its required signatures (the
auth-key signer's, applied by the first-signature handler before the
serialized transaction is stored, and the destination's, applied by the
destination-sign handler immediately before submission). -/
theorem C2_thm :
    (∀ (env : Env) (signOk : Bool) (w : World),
       (applyEvent env (.signCurrent signOk) w).submitted = w.submitted) ∧
    (∀ (env : Env) (evs : List Event) (tx : Tx),
       tx ∈ (run env evs).submitted → txFullySigned tx) := by
  constructor
  · intro env signOk w
    simp only [applyEvent, handleSignWithCurrentWalletFn]
    repeat' split
    all_goals rfl
  · intro env evs tx htx
    exact (run_preserves env SubmitInv submitInv_init
      (submitInv_step env) evs).1 tx htx

/-- Witness for C2 on the happy path: the stored transaction is submitted with both required signatures present. -/
theorem C2_witness :
    (applyEvent env0 (.signCurrent true)
        (run env0 (evsToSignDest.take 5))).submitted
      = (run env0 (evsToSignDest.take 5)).submitted ∧
    txHappy ∈ (run env0 evsHappy).submitted ∧
    pkD ∈ txHappy.requiredSigners ∧ pkA ∈ txHappy.requiredSigners ∧
    pkD ∈ txHappy.signatures ∧ pkA ∈ txHappy.signatures :=
  ⟨C2_thm.1 env0 true (run env0 (evsToSignDest.take 5)),
   by decide, by decide, by decide,
   C2_thm.2 env0 evsHappy txHappy (by decide) pkD (by decide),
   C2_thm.2 env0 evsHappy txHappy (by decide) pkA (by decide)⟩

/-- Claim C3, counterexample.  The submit handler compares the destination
against the currently connected wallet, not against `originalAuthPubkey`:
after the wallet is switched to `E` during `enter_destination`, submitting
`A` (the captured `originalAuthPubkey`) is accepted and the step advances to
`sign_current` even though the destination equals `originalAuthPubkey`. -/
theorem C3_counterexample :
    (run env0 [.walletChange (some pkA), .fetchProfiles, .openTransfer 0,
        .walletChange (some pkE), .setDestination (toB58 pkA),
        .submitDestination]).transferState.step = .sign_current ∧
    (run env0 [.walletChange (some pkA), .fetchProfiles, .openTransfer 0,
        .walletChange (some pkE), .setDestination (toB58 pkA),
        .submitDestination]).transferState.destinationPubkey
      = (run env0 [.walletChange (some pkA), .fetchProfiles, .openTransfer 0,
        .walletChange (some pkE), .setDestination (toB58 pkA),
        .submitDestination]).transferState.originalAuthPubkey := by
  decide

/-- Claim C3, amended.  Submitting the destination advances
`enter_destination → sign_current` exactly when the trimmed input parses as
a well-formed address and differs from the currently connected wallet's
address (`wallet.publicKey?.toBase58()` at submission time, which equals
`originalAuthPubkey` only while the connected wallet is unchanged since
session start); a malformed input records `Invalid Solana address`, an input
equal to the connected wallet records the same-as-current error, and in
every case the handler performs no submission, fetch, or delete. -/
theorem C3_amended (env : Env) (w : World)
    (hstep : w.transferState.step = .enter_destination)
    (hne : trimL w.transferState.destinationPubkey ≠ []) :
    (validB58 (trimL w.transferState.destinationPubkey) = true →
     currentB58 w ≠ some (trimL w.transferState.destinationPubkey) →
       (applyEvent env .submitDestination w).transferState.step = .sign_current ∧
       (applyEvent env .submitDestination w).transferState.error = none ∧
       (applyEvent env .submitDestination w).transferState.destinationPubkey
         = w.transferState.destinationPubkey) ∧
    (validB58 (trimL w.transferState.destinationPubkey) = false →
       (applyEvent env .submitDestination w).transferState.step
           = .enter_destination ∧
       (applyEvent env .submitDestination w).transferState.error
           = some invalidAddressMsg) ∧
    (validB58 (trimL w.transferState.destinationPubkey) = true →
     currentB58 w = some (trimL w.transferState.destinationPubkey) →
       (applyEvent env .submitDestination w).transferState.step
           = .enter_destination ∧
       (applyEvent env .submitDestination w).transferState.error
           = some sameAsCurrentMsg) ∧
    (applyEvent env .submitDestination w).submitted = w.submitted ∧
    (applyEvent env .submitDestination w).fetchCount = w.fetchCount ∧
    (applyEvent env .submitDestination w).deleteLog = w.deleteLog := by
  refine ⟨?_, ?_, ?_, ?_, ?_, ?_⟩
  · intro hv hcur
    have hp : parsePubkey (trimL w.transferState.destinationPubkey) =
        some ⟨trimL w.transferState.destinationPubkey, hv⟩ := by
      unfold parsePubkey; rw [dif_pos hv]
    simp [applyEvent, handleDestinationSubmitFn, hstep, hne, hp, hcur, hstep]
  · intro hv
    have hp : parsePubkey (trimL w.transferState.destinationPubkey) = none :=
      parsePubkey_none_iff.mpr hv
    simp [applyEvent, handleDestinationSubmitFn, hstep, hne, hp]
  · intro hv hcur
    have hp : parsePubkey (trimL w.transferState.destinationPubkey) =
        some ⟨trimL w.transferState.destinationPubkey, hv⟩ := by
      unfold parsePubkey; rw [dif_pos hv]
    simp [applyEvent, handleDestinationSubmitFn, hstep, hne, hp, hcur]
  · simp only [applyEvent, handleDestinationSubmitFn]
    repeat' split
    all_goals rfl
  · simp only [applyEvent, handleDestinationSubmitFn]
    repeat' split
    all_goals rfl
  · simp only [applyEvent, handleDestinationSubmitFn]
    repeat' split
    all_goals rfl

/-- Witness for C3, exercising the three validation outcomes on concrete inputs. -/
theorem C3_witness :
    (applyEvent env0 .submitDestination
        (run env0 [.walletChange (some pkA), .fetchProfiles, .openTransfer 0,
          .setDestination (toB58 pkD)])).transferState.step = .sign_current ∧
    (applyEvent env0 .submitDestination
        (run env0 [.walletChange (some pkA), .fetchProfiles, .openTransfer 0,
          .setDestination ['a', 'b', 'c']])).transferState.error
      = some invalidAddressMsg ∧
    (applyEvent env0 .submitDestination
        (run env0 [.walletChange (some pkA), .fetchProfiles, .openTransfer 0,
          .setDestination (toB58 pkA)])).transferState.error
      = some sameAsCurrentMsg :=
  ⟨((C3_amended env0 _ (by decide) (by decide)).1 (by decide) (by decide)).1,
   ((C3_amended env0 _ (by decide) (by decide)).2.1 (by decide)).2,
   ((C3_amended env0 _ (by decide) (by decide)).2.2.1 (by decide)
      (by decide)).2⟩

/-- Claim C4, counterexample.  A wrong-wallet error recorded in
`connect_destination` survives the user-triggered `Continue to Sign`
transition: the step advances to `sign_destination` while the error field is
left unchanged (non-null), refuting the claim that every successful forward
transition clears the error. -/
theorem C4_counterexample :
    (run env0 (evsToSignDest.take 6 ++
        [.walletChange (some pkC), .walletEffect,
         .walletChange (some pkD)])).transferState.step = .connect_destination ∧
    (run env0 (evsToSignDest.take 6 ++
        [.walletChange (some pkC), .walletEffect,
         .walletChange (some pkD)])).transferState.error ≠ none ∧
    (applyEvent env0 .continueToSign
      (run env0 (evsToSignDest.take 6 ++
        [.walletChange (some pkC), .walletEffect,
         .walletChange (some pkD)]))).transferState.step = .sign_destination ∧
    (applyEvent env0 .continueToSign
      (run env0 (evsToSignDest.take 6 ++
        [.walletChange (some pkC), .walletEffect,
         .walletChange (some pkD)]))).transferState.error
      = (run env0 (evsToSignDest.take 6 ++
        [.walletChange (some pkC), .walletEffect,
         .walletChange (some pkD)])).transferState.error := by
  decide

/-- Claim C4, amended.  Every event that effects one of the forward
transitions named by the specification (`enter_destination → sign_current`,
`sign_current → connect_destination`, `connect_destination →
sign_destination`, `sign_destination → complete`,
`expired → sign_current`) clears the error to `none` — except the
user-triggered `Continue to Sign` button, which sets only the step and
leaves the error field unchanged. -/
theorem C4_amended :
    (∀ (env : Env) (e : Event) (w : World), e ≠ Event.continueToSign →
       forwardPair w.transferState.step
         (applyEvent env e w).transferState.step = true →
       (applyEvent env e w).transferState.error = none) ∧
    (∀ (env : Env) (w : World) (cw : Pubkey),
       w.transferState.step = .connect_destination →
       w.connectedWallet = some cw →
       toB58 cw = w.transferState.destinationPubkey →
       applyEvent env .continueToSign w =
         { w with transferState :=
             { w.transferState with step := .sign_destination } }) :=
  ⟨fun env e w hne hf => C4aux1 env e w hne hf,
   fun env w cw hstep hcw hdest => C4aux2 env w cw hstep hcw hdest⟩

/-- Witness for C4: a clearing forward transition and the error-preserving user-triggered transition, on concrete states. -/
theorem C4_witness :
    (applyEvent env0 (.signCurrent true)
        (run env0 (evsToSignDest.take 5))).transferState.error = none ∧
    applyEvent env0 .continueToSign (run env0 (evsToSignDest.take 7)) =
      { (run env0 (evsToSignDest.take 7)) with transferState :=
          { (run env0 (evsToSignDest.take 7)).transferState with
            step := .sign_destination } } :=
  ⟨C4_amended.1 env0 (.signCurrent true) _ (by decide) (by decide),
   C4_amended.2 env0 _ pkD (by decide) (by decide) (by decide)⟩

/-- Claim C5, confirmed.  In `connect_destination`, when the connected
identity equals `destinationPubkey` the wallet-watch effect advances the
step to `sign_destination` with the error cleared and no user action; when
the connected identity is non-null and equals neither `destinationPubkey`
nor `originalAuthPubkey`, the effect records the wrong-wallet error (naming
the expected destination by its leading and trailing four characters) and
the step remains `connect_destination`. -/
theorem C5_reconcile (env : Env) (w : World) (cw : Pubkey)
    (hstep : w.transferState.step = .connect_destination)
    (hcw : w.connectedWallet = some cw) :
    (toB58 cw = w.transferState.destinationPubkey →
       (applyEvent env .walletEffect w).transferState.step = .sign_destination ∧
       (applyEvent env .walletEffect w).transferState.error = none) ∧
    (toB58 cw ≠ w.transferState.destinationPubkey →
     toB58 cw ≠ w.transferState.originalAuthPubkey →
       (applyEvent env .walletEffect w).transferState.step = .connect_destination ∧
       (applyEvent env .walletEffect w).transferState.error =
         some (wrongWalletMsg w.transferState.destinationPubkey)) := by
  constructor
  · intro heq
    simp [applyEvent, walletWatchEffect, hcw, hstep, heq]
  · intro hne hno
    simp [applyEvent, walletWatchEffect, hcw, hstep, hne, hno]

/-- Witness for C5: the automatic advance on connecting the destination wallet, and the wrong-wallet error on connecting an unrelated wallet. -/
theorem C5_witness :
    ((applyEvent env0 .walletEffect
        (run env0 (evsToSignDest.take 7))).transferState.step
        = .sign_destination ∧
     (applyEvent env0 .walletEffect
        (run env0 (evsToSignDest.take 7))).transferState.error = none) ∧
    ((applyEvent env0 .walletEffect
        (run env0 (evsToSignDest.take 6 ++ [.walletChange (some pkC)]))
      ).transferState.step = .connect_destination ∧
     (applyEvent env0 .walletEffect
        (run env0 (evsToSignDest.take 6 ++ [.walletChange (some pkC)]))
      ).transferState.error =
       some (wrongWalletMsg (run env0 (evsToSignDest.take 6 ++
         [.walletChange (some pkC)])).transferState.destinationPubkey)) :=
  ⟨(C5_reconcile env0 _ pkD (by decide) (by decide)).1 (by decide),
   (C5_reconcile env0 _ pkC (by decide) (by decide)).2 (by decide)
     (by decide)⟩

/-- Claim C6, confirmed.  Disconnecting the wallet (connected identity
becomes null) while the step is in `{connect_destination, sign_destination,
expired, complete}` leaves the whole transfer session — step,
`destinationPubkey`, `originalAuthPubkey`, `partiallySignedTx`, `signedAt`,
and every other field — unchanged, both at the disconnect itself and after
the wallet-watch effect runs on the disconnected state. -/
theorem C6_disconnect (env : Env) (w : World)
    (_h : w.transferState.step = .connect_destination ∨
         w.transferState.step = .sign_destination ∨
         w.transferState.step = .expired ∨
         w.transferState.step = .complete) :
    (applyEvent env (.walletChange none) w).transferState = w.transferState ∧
    (applyEvent env .walletEffect
        (applyEvent env (.walletChange none) w)).transferState
      = w.transferState := by
  constructor
  · rfl
  · simp [applyEvent, walletWatchEffect]

/-- Witness for C6: disconnecting during `sign_destination` on the happy path preserves the session. -/
theorem C6_witness :
    (applyEvent env0 (.walletChange none)
        (run env0 evsToSignDest)).transferState
      = (run env0 evsToSignDest).transferState ∧
    (applyEvent env0 .walletEffect (applyEvent env0 (.walletChange none)
        (run env0 evsToSignDest))).transferState
      = (run env0 evsToSignDest).transferState :=
  C6_disconnect env0 _ (by decide)

/-- Claim C7, confirmed.  Restarting from `expired` produces exactly the
state with `step := sign_current` and `partiallySignedTx`, `signedAt`,
`error` cleared; every other field — `destinationPubkey`,
`originalAuthPubkey`, `profileKey`, `profileCreatedAt`,
`profileKeyThreshold`, and all non-session state — is unchanged, so the user
does not re-enter the destination address. -/
theorem C7_restart_frame (env : Env) (w : World)
    (h : w.transferState.step = .expired) :
    applyEvent env .restartTransfer w =
      { w with transferState :=
          { w.transferState with
            step := .sign_current
            partiallySignedTx := none
            signedAt := none
            error := none } } := by
  simp [applyEvent, handleRestartTransferFn, h]

/-- Witness for C7 on an expired happy-path session. -/
theorem C7_witness :
    applyEvent env0 .restartTransfer
        (run env0 (evsToSignDest ++ [.advanceTime 43000, .timerTick])) =
      { (run env0 (evsToSignDest ++ [.advanceTime 43000, .timerTick])) with
        transferState :=
          { (run env0 (evsToSignDest ++
              [.advanceTime 43000, .timerTick])).transferState with
            step := .sign_current
            partiallySignedTx := none
            signedAt := none
            error := none } } :=
  C7_restart_frame env0 _ (by decide)

/-- Claim C8, confirmed.  Along every event sequence from the initial mount,
every dispatched remove-key mutation targets an index range `[i, i + 1)`
whose key entry, in the fetched profile, has `auth = false`: the `Delete`
button is rendered only on non-auth rows, so the delete path is never
dispatched for a key whose auth flag is true. -/
theorem C8_thm (env : Env) (evs : List Event) :
    deleteLogOkB env (run env evs) = true :=
  (run_preserves env (DeleteInv env) (deleteInv_init env)
    (deleteInv_step env) evs).2

/-- Claim C9, counterexample.  Immediately after the transfer modal is
opened the session exists (`step = enter_destination ≠ idle`), yet invoking
the profile fetch performs a network read (the read counter increases):
fetches are suppressed only from `connect_destination` onwards, not for
every state in which a transfer session exists. -/
theorem C9_counterexample :
    (run env0 [.walletChange (some pkA), .fetchProfiles,
        .openTransfer 0]).transferState.step = .enter_destination ∧
    (run env0 [.walletChange (some pkA), .fetchProfiles,
        .openTransfer 0]).transferState.step ≠ .idle ∧
    (applyEvent env0 .fetchProfiles
      (run env0 [.walletChange (some pkA), .fetchProfiles,
        .openTransfer 0])).fetchCount
      = (run env0 [.walletChange (some pkA), .fetchProfiles,
        .openTransfer 0]).fetchCount + 1 := by
  decide

example : txHappy ∈ (run env0 evsHappy).submitted := by decide

/-- Claim C9, amended.  Whenever `isTransferInProgress` holds (step in
`{connect_destination, sign_destination, expired, complete}`), invoking the
profile-fetch operation is a complete no-op: no network read occurs and the
whole state, including the profile list, is unchanged.  In
`enter_destination` and `sign_current` a session exists but the fetch is not
suppressed. -/
theorem C9_amended (env : Env) (w : World)
    (h : isTransferInProgress w.transferState.step = true) :
    applyEvent env .fetchProfiles w = w := by
  simp [applyEvent, fetchProfilesFn, h]

/-- Witness for C9: fetching during `sign_destination` changes nothing. -/
theorem C9_amended_witness :
    applyEvent env0 .fetchProfiles (run env0 evsToSignDest)
      = run env0 evsToSignDest :=
  C9_amended env0 _ (by decide)

/-- Claim C10, confirmed.  For a destination input `d` that trimming changes
(it carries leading or trailing whitespace) yet whose trimmed form is a
valid address: no public key renders as `d`, so the stored destination can
never equal any connected wallet's address; `new PublicKey(d)` fails;
submission validation (which checks the trimmed string) succeeds and
advances past `enter_destination` while storing the untrimmed `d`; the
first-signature handler, parsing the untrimmed `d`, fails and stores no
partial transaction; the `connect_destination` auto-advance never fires; and
the `sign_destination` wallet guard always rejects, never submitting. -/
theorem C10_thm (env : Env) (d : Str)
    (htrim : trimL d ≠ d) (hvalid : validB58 (trimL d) = true) :
    (∀ p : Pubkey, toB58 p ≠ d) ∧
    parsePubkey d = none ∧
    (∀ w : World, w.transferState.step = .enter_destination →
       w.transferState.destinationPubkey = d →
       currentB58 w ≠ some (trimL d) →
       (applyEvent env .submitDestination w).transferState.step = .sign_current ∧
       (applyEvent env .submitDestination w).transferState.destinationPubkey
         = d) ∧
    (∀ w : World, w.transferState.step = .sign_current →
       w.transferState.destinationPubkey = d →
       (applyEvent env (.signCurrent true) w).transferState.step
           = .sign_current ∧
       (applyEvent env (.signCurrent true) w).transferState.partiallySignedTx
         = w.transferState.partiallySignedTx) ∧
    (∀ w : World, w.transferState.step = .connect_destination →
       w.transferState.destinationPubkey = d →
       (applyEvent env .walletEffect w).transferState.step
           = .connect_destination) ∧
    (∀ w : World, w.transferState.step = .sign_destination →
       w.transferState.destinationPubkey = d →
       (applyEvent env (.signDestination true true) w).submitted
           = w.submitted ∧
       (applyEvent env (.signDestination true true) w).transferState.step
           = .sign_destination) := by
  have hinvalid : validB58 d = false := validB58_false_of_trim_ne htrim
  have hnotkey : ∀ p : Pubkey, toB58 p ≠ d := by
    intro p hp
    have hv : validB58 d = true := by
      rw [← hp]; exact p.property
    rw [hv] at hinvalid
    cases hinvalid
  have hparse : parsePubkey d = none := parsePubkey_none_iff.mpr hinvalid
  have hnonempty : trimL d ≠ [] := by
    intro hnil
    rw [hnil] at hvalid
    cases hvalid
  refine ⟨hnotkey, hparse, ?_, ?_, ?_, ?_⟩
  · intro w hstep hdest hcur
    have hp : parsePubkey (trimL d) = some ⟨trimL d, hvalid⟩ := by
      unfold parsePubkey; rw [dif_pos hvalid]
    simp [applyEvent, handleDestinationSubmitFn, hstep, hdest, hnonempty, hp,
      hcur]
  · intro w hstep hdest
    simp only [applyEvent, handleSignWithCurrentWalletFn, hstep, if_true]
    cases hc : w.connectedWallet with
    | none => exact ⟨hstep, rfl⟩
    | some cw =>
        cases hs : w.selectedProfile with
        | none => exact ⟨hstep, rfl⟩
        | some prof =>
            rw [hdest, hparse]
            exact ⟨rfl, rfl⟩
  · intro w hstep hdest
    simp only [applyEvent, walletWatchEffect]
    cases hc : w.connectedWallet with
    | none => exact hstep
    | some cw =>
        have h1 : toB58 cw ≠ w.transferState.destinationPubkey := by
          rw [hdest]; exact hnotkey cw
        simp only [hstep, eq_self_iff_true, if_true]
        rw [if_neg h1]
        split
        · rfl
        · exact hstep
  · intro w hstep hdest
    simp only [applyEvent, handleSignWithDestinationWalletFn]
    cases hc : w.connectedWallet with
    | none =>
        simp only [hstep, eq_self_iff_true, if_true]
        exact ⟨trivial, trivial⟩
    | some cw =>
        cases hp : w.transferState.partiallySignedTx with
        | none =>
            simp only [hstep, eq_self_iff_true, if_true]
            exact ⟨trivial, trivial⟩
        | some ptx =>
            have h1 : toB58 cw ≠ w.transferState.destinationPubkey := by
              rw [hdest]; exact hnotkey cw
            simp only [hstep, eq_self_iff_true, if_true]
            rw [if_pos h1]
            exact ⟨rfl, rfl⟩

/-- Witness for C10 with a leading-space destination input. -/
theorem C10_witness :
    toB58 pkD ≠ dWS ∧
    parsePubkey dWS = none ∧
    ((applyEvent env0 .submitDestination
        (run env0 evsC10)).transferState.step = .sign_current ∧
     (applyEvent env0 .submitDestination
        (run env0 evsC10)).transferState.destinationPubkey = dWS) ∧
    ((applyEvent env0 (.signCurrent true)
        (run env0 (evsC10 ++ [.submitDestination]))).transferState.step
        = .sign_current ∧
     (applyEvent env0 (.signCurrent true)
        (run env0 (evsC10 ++ [.submitDestination]))
      ).transferState.partiallySignedTx
      = (run env0 (evsC10 ++
          [.submitDestination])).transferState.partiallySignedTx) ∧
    (applyEvent env0 .walletEffect wC10cd).transferState.step
        = .connect_destination ∧
    ((applyEvent env0 (.signDestination true true) wC10sd).submitted
        = wC10sd.submitted ∧
     (applyEvent env0 (.signDestination true true) wC10sd).transferState.step
        = .sign_destination) :=
  ⟨(C10_thm env0 dWS (by decide) (by decide)).1 pkD,
   (C10_thm env0 dWS (by decide) (by decide)).2.1,
   (C10_thm env0 dWS (by decide) (by decide)).2.2.1 (run env0 evsC10)
     (by decide) (by decide) (by decide),
   (C10_thm env0 dWS (by decide) (by decide)).2.2.2.1
     (run env0 (evsC10 ++ [.submitDestination])) (by decide) (by decide),
   (C10_thm env0 dWS (by decide) (by decide)).2.2.2.2.1 wC10cd (by decide)
     (by decide),
   (C10_thm env0 dWS (by decide) (by decide)).2.2.2.2.2 wC10sd (by decide)
     (by decide)⟩

end ProfileKeyManagement
